import Mathlib

/-!
Shallow embedding of `deploy/fabfile.py`, the deployment script of this
repository.  Remote effects (yum commands, EC2 API calls, sleeps, file
writes) are modelled as explicit trace events; the outcomes of the
external world (remote command success, observed instance states, tag
call results, ssh reachability) are inputs to the embedded functions.
Python exceptions are modelled as explicit error values, including
`NameError` for a reference to an unbound local variable.
-/

/-- Fixed configuration constants of the fabfile. -/
def REBOOT_TIME : Nat := 180

def LAUNCH_TIME : Nat := 300

def ami_id : String := "ami-8f4083e6"

def instance_name : String := "oracle-database"

def instance_type : String := "m1.xlarge"

def security_group_name : String := "oracle-database"

/-- A remote command issued through fabric (`run`/`sudo`/`reboot`). -/
inductive RCmd where
  | sudoCmd (c : String)
  | runCmd (c : String)
  | rebootCmd (wait : Nat)
  deriving DecidableEq, Repr

/-- A Python exception as raised by the fabfile: `RuntimeError` with its
message, or `NameError` for an unbound local variable. -/
inductive PyError where
  | runtimeError (msg : String)
  | nameError (var : String)
  deriving DecidableEq, Repr

/-- `yum_update()`: issue `yum -y makecache` via sudo; raise when it fails.
`makecacheOk` is the outcome of the remote command. -/
def yum_update (makecacheOk : Bool) : List RCmd × Option String :=
  ([RCmd.sudoCmd "yum -y makecache"],
   if makecacheOk then none else some "Unable to update yum repository information.")

/-- Result of one call to `yum_install`: the remote commands issued, the
exception raised (if any), and the contents of the shared mutable default
list (`package_list=[]`) after the call. -/
structure CallResult where
  trace : List RCmd
  error : Option PyError
  defaultCell : List String
  deriving DecidableEq, Repr

/-- `yum_install(package_list=[], update_cache=False)`.

`cell` is the current contents of the function's shared mutable default
list; `arg` is the explicit `package_list` argument (`none` when the call
supplies no argument, so that the default object is used); `cfg` is the
sequence of first fields of the rows of `yum-requirements.txt`;
`update_cache` is the keyword argument; `makecacheOk` and `installOk` are
the outcomes of the remote commands.

The local variable `package` is bound only by the config-reading loop, so
it holds the last row read; if the loop never ran, formatting the error
message raises `NameError`. -/
def yum_install (cell : List String) (arg : Option (List String)) (cfg : List String)
    (update_cache : Bool) (makecacheOk : Bool) (installOk : Bool) : CallResult :=
  let upd := if update_cache then yum_update makecacheOk else ([], none)
  match upd.2 with
  | some msg => ⟨upd.1, some (PyError.runtimeError msg), cell⟩
  | none =>
    let package_list := arg.getD cell
    let readCfg := package_list.length == 0
    let package_list := if readCfg then package_list ++ cfg else package_list
    let packageVar : Option String := if readCfg then cfg.getLast? else none
    let cell := if readCfg && arg.isNone then package_list else cell
    let trace := upd.1 ++ [RCmd.sudoCmd ("yum -y install " ++ String.intercalate " " package_list)]
    if installOk then ⟨trace, none, cell⟩
    else
      match packageVar with
      | some p => ⟨trace, some (PyError.runtimeError ("Unable to install package " ++ p ++ ".")), cell⟩
      | none => ⟨trace, some (PyError.nameError "package"), cell⟩

/-- Two successive no-argument calls to `yum_install` in one process: the
second call receives the default-list cell left by the first. -/
def yum_install_twice (cfg : List String) : CallResult × CallResult :=
  let r1 := yum_install [] none cfg false true true
  let r2 := yum_install r1.defaultCell none cfg false true true
  (r1, r2)

/-- `yum_upgrade(update_cache=False)`: optional cache refresh, then
`yum-complete-transaction`, `package-cleanup` (results discarded), then
strict `yum -y --skip-broken upgrade`. -/
def yum_upgrade (update_cache : Bool) (makecacheOk : Bool) (upgradeOk : Bool) :
    List RCmd × Option String :=
  let upd := if update_cache then yum_update makecacheOk else ([], none)
  match upd.2 with
  | some msg => (upd.1, some msg)
  | none =>
    let trace := upd.1 ++
      [RCmd.sudoCmd "yum-complete-transaction -y",
       RCmd.sudoCmd "package-cleanup --problems",
       RCmd.sudoCmd "yum -y --skip-broken upgrade"]
    (trace, if upgradeOk then none else some "Unable to upgrade yum packages.")

/-- `yum_upgrade_reboot()`: `yum_upgrade()` (with `update_cache` left at its
default `False`) followed by `reboot(REBOOT_TIME)`. -/
def yum_upgrade_reboot (makecacheOk : Bool) (upgradeOk : Bool) : List RCmd × Option String :=
  let up := yum_upgrade false makecacheOk upgradeOk
  match up.2 with
  | some msg => (up.1, some msg)
  | none => (up.1 ++ [RCmd.rebootCmd REBOOT_TIME], none)

/-- The order of the post-launch workflow steps run by `post_launch`,
keyed by the fabfile function each `execute` call targets. -/
def post_launch_steps (skip_updates : Bool) : List String :=
  ["resize_root", "disable_software_firewall"] ++
    (if skip_updates then [] else ["yum_upgrade_reboot"]) ++
    ["enroll_oel", "yum_install", "setup_db_reqs", "install_db", "install_db_post",
     "create_listener", "create_database"]

/-- Events of the log-tailing loop at the end of `install_db`. -/
inductive TailEv where
  | fetchLog (attempt : Nat)
  | tailPrint
  | tailSleep (seconds : Nat)
  deriving DecidableEq, Repr

/-- The `while True` tailing loop of `install_db`: on each iteration fetch
the remote log (attempt `i`); if it contains `INFO: Unloading Setup Driver`
break, else print the tail and sleep 10 seconds.  `markerFound i` says
whether the copy fetched on attempt `i` contains the marker.  `fuel` bounds
the modelled horizon; the Boolean result records whether the loop exited. -/
def install_db_tail (markerFound : Nat → Bool) : Nat → Nat → List TailEv × Bool
  | 0, _ => ([], false)
  | Nat.succ fuel, i =>
    if markerFound i then ([TailEv.fetchLog i], true)
    else
      let rest := install_db_tail markerFound fuel (i + 1)
      (TailEv.fetchLog i :: TailEv.tailPrint :: TailEv.tailSleep 10 :: rest.1, rest.2)

/-- The trace produced by the tailing loop when the marker first appears on
attempt `i + n`: `n` full iterations (fetch, print, 10s sleep) followed by
the final fetch. -/
def tailTraceFrom (i : Nat) : Nat → List TailEv
  | 0 => [TailEv.fetchLog i]
  | Nat.succ n => TailEv.fetchLog i :: TailEv.tailPrint :: TailEv.tailSleep 10 ::
      tailTraceFrom (i + 1) n

/-- The ssh command string built by `test_ssh`. -/
def test_ssh_cmd (keyfile user host : String) (timeout retry_count : Nat) : String :=
  "ssh -t -i " ++ keyfile ++ " -o StrictHostKeyChecking=no -o ConnectTimeout=" ++
    toString timeout ++ " -o ConnectionAttempts=" ++ toString retry_count ++
    " -o BatchMode=yes " ++ user ++ "@" ++ host ++ " uname -a"

/-- Events of `launch_instance`: EC2 API calls, sleeps, remote/local
commands, the single ssh readiness probe built by `test_ssh`, the host
record write, and the hand-off to `post_launch`. -/
inductive Ev where
  | apiGetGroups
  | apiCreateGroup (name : String)
  | apiAuthorize (proto : String) (portFrom portTo : Nat) (cidr : String)
  | apiRunInstances (ami itype group : String) (rootVolSize : Nat)
  | apiCreateTags (name : String)
  | evSleep (seconds : Nat)
  | evRun (cmd : String)
  | evProbe (cmd : String)
  | evSetHost (hostString : String)
  | evPostLaunch (hostString hostStringOracle : String) (skip_updates : Bool)
  deriving DecidableEq, Repr

/-- Inputs of `launch_instance` supplied by the outside world: the fabric
key file, the security groups returned by each of the two
`get_all_security_groups` calls, the successive values of `instance.state`
(head = initial state of the reservation's instance, each later element the
state after one `instance.update()`), the outcome of each `create_tags`
attempt, the instance's public DNS name, and the result of the ssh probe. -/
structure LaunchEnv where
  keyfile : String
  groupsAtLaunch : List String
  groupsAtCreate : List String
  states : List String
  tagOk : Nat → Bool
  dns : String
  sshOk : Bool

/-- Outcome of `launch_instance`: normal return, a raised exception, or the
modelling horizon running out while the instance is still `pending` (the
Python loop would still be polling). -/
inductive LaunchOutcome where
  | ok
  | raised (msg : String)
  | outOfStates
  deriving DecidableEq, Repr

/-- `create_security_group()`: list all groups and raise if the configured
name already exists; otherwise create the group and authorize ssh (22/tcp)
and OEM (1158/tcp) from anywhere. -/
def create_security_group (groups : List String) : List Ev × Option String :=
  if groups.contains security_group_name then
    ([Ev.apiGetGroups], some "Security group already exists.")
  else
    ([Ev.apiGetGroups,
      Ev.apiCreateGroup security_group_name,
      Ev.apiAuthorize "tcp" 22 22 "0.0.0.0/0",
      Ev.apiAuthorize "tcp" 1158 1158 "0.0.0.0/0"], none)

/-- The security-group phase at the top of `launch_instance`: list groups,
scan for the configured name, and call `create_security_group` only when it
was not found. -/
def grp_phase (e : LaunchEnv) : List Ev × Option String :=
  if e.groupsAtLaunch.contains security_group_name then ([Ev.apiGetGroups], none)
  else (Ev.apiGetGroups :: (create_security_group e.groupsAtCreate).1,
        (create_security_group e.groupsAtCreate).2)

/-- The `while instance.state == 'pending'` loop of `launch_instance`,
including the in-loop tagging attempts: while the current state (head of
`states`) is `pending`, attempt `create_tags` if no attempt has succeeded
yet (`set_tags` tracks this; `k` counts attempts made, `tagOk k` is the
outcome of attempt `k`), then sleep 10 seconds and re-fetch the state.
Returns the trace and the first non-`pending` state (`none` when `states`
runs out while still `pending`). -/
def pending_loop (tagOk : Nat → Bool) : List String → Nat → Bool → List Ev × Option String
  | [], _, _ => ([], none)
  | st :: rest, k, set_tags =>
    if st == "pending" then
      if set_tags then
        let r := pending_loop tagOk rest k true
        (Ev.evSleep 10 :: r.1, r.2)
      else
        let r := pending_loop tagOk rest (k + 1) (tagOk k)
        (Ev.apiCreateTags instance_name :: Ev.evSleep 10 :: r.1, r.2)
    else ([], some st)

/-- Trace of `launch_instance` up to and including the pending-state loop. -/
def launch_pre_trace (e : LaunchEnv) : List Ev :=
  (grp_phase e).1 ++ [Ev.apiRunInstances ami_id instance_type security_group_name 40] ++
    (pending_loop e.tagOk e.states 0 false).1

/-- Trace of `launch_instance` through the ssh readiness probe: known-hosts
flush, fixed `LAUNCH_TIME` warm-up sleep, then the single
`test_ssh('root', dns, timeout=30, retry_count=20)` command. -/
def launch_ssh_trace (e : LaunchEnv) : List Ev :=
  launch_pre_trace e ++
    [Ev.evRun ("ssh-keygen -R " ++ e.dns),
     Ev.evSleep LAUNCH_TIME,
     Ev.evProbe (test_ssh_cmd e.keyfile "root" e.dns 30 20)]

/-- `launch_instance(skip_updates=False)`: ensure the security group,
launch the instance with a 40GB root EBS override, poll the pending state
(tagging inside the loop), fail unless the terminal state is `running`,
flush the known-hosts entry, sleep `LAUNCH_TIME`, issue the single ssh
probe, and on success write the host record and run `post_launch`. -/
def launch_instance (e : LaunchEnv) (skip_updates : Bool) : List Ev × LaunchOutcome :=
  match (grp_phase e).2 with
  | some msg => ((grp_phase e).1, LaunchOutcome.raised msg)
  | none =>
    match (pending_loop e.tagOk e.states 0 false).2 with
    | none => (launch_pre_trace e, LaunchOutcome.outOfStates)
    | some st =>
      if st == "running" then
        if e.sshOk then
          (launch_ssh_trace e ++
            [Ev.evSetHost ("root@" ++ e.dns),
             Ev.evPostLaunch ("root@" ++ e.dns) ("oracle@" ++ e.dns) skip_updates],
           LaunchOutcome.ok)
        else
          (launch_ssh_trace e,
           LaunchOutcome.raised
             "Unable to connect over SSH to host {} with timeout/retry_count settings.")
      else
        (launch_pre_trace e, LaunchOutcome.raised ("Instance state is " ++ st ++ "."))

/-- Recognizer for the ssh readiness probe among trace events. -/
def isProbeEv : Ev → Bool
  | Ev.evProbe _ => true
  | _ => false

/-- Recognizer for the `create_tags` API call among trace events. -/
def isTagEv : Ev → Bool
  | Ev.apiCreateTags _ => true
  | _ => false

/-- Recognizer for the `create_security_group` API call among trace events. -/
def isCreateGroupEv : Ev → Bool
  | Ev.apiCreateGroup _ => true
  | _ => false

/-- Recognizer for the ingress-rule `authorize` API call among trace events. -/
def isAuthorizeEv : Ev → Bool
  | Ev.apiAuthorize _ _ _ _ => true
  | _ => false

/-- Recognizer for the `run_instances` API call among trace events. -/
def isRunInstancesEv : Ev → Bool
  | Ev.apiRunInstances _ _ _ _ => true
  | _ => false

/-- Recognizer for the host-record write among trace events. -/
def isSetHostEv : Ev → Bool
  | Ev.evSetHost _ => true
  | _ => false

/-- Recognizer for the `post_launch` hand-off among trace events. -/
def isPostLaunchEv : Ev → Bool
  | Ev.evPostLaunch _ _ _ => true
  | _ => false

/-- Number of leading `pending` states: the number of iterations of the
pending-state polling loop. -/
def leadingPendingCount (states : List String) : Nat :=
  (states.takeWhile (fun st => st == "pending")).length

/-- First non-`pending` entry of the observed state sequence. -/
def terminal_of (states : List String) : Option String :=
  (states.dropWhile (fun st => st == "pending")).head?

/-- Formalization of claim C3 at one environment: the readiness check
issues one probe command per attempt, 20 in a run where no probe succeeds,
each probe requesting a single connection attempt (`ConnectionAttempts=1`)
with a 30-second timeout. -/
def C3Claim (e : LaunchEnv) (skip_updates : Bool) : Prop :=
  (launch_instance e skip_updates).1.countP isProbeEv = 20 ∧
  ∀ ev ∈ (launch_instance e skip_updates).1, isProbeEv ev = true →
    ev = Ev.evProbe (test_ssh_cmd e.keyfile "root" e.dns 30 1)

/-- Formalization of claim C6 at one environment: the name tag is attempted
exactly once, retried at most once on failure (so at most two `create_tags`
calls, and at least one). -/
def C6Claim (e : LaunchEnv) (skip_updates : Bool) : Prop :=
  1 ≤ (launch_instance e skip_updates).1.countP isTagEv ∧
  (launch_instance e skip_updates).1.countP isTagEv ≤ 2

/-- Formalization of claim C10: the second no-argument call issues an
install command whose package list contains every configured package
twice. -/
def C10Claim (cfg : List String) : Prop :=
  (yum_install_twice cfg).2.trace =
    [RCmd.sudoCmd ("yum -y install " ++ String.intercalate " " (cfg ++ cfg))]

/-- Environment where the instance boots but no ssh probe ever succeeds. -/
def envC3 : LaunchEnv :=
  ⟨"key.pem", ["oracle-database"], [], ["pending", "running"], fun _ => true,
   "db.example.com", false⟩

/-- Environment whose instance leaves `pending` into `terminated`. -/
def envC4 : LaunchEnv :=
  ⟨"key.pem", ["oracle-database"], [], ["pending", "terminated"], fun _ => true,
   "db.example.com", true⟩

/-- Environment where the instance runs but ssh never comes up. -/
def envC5 : LaunchEnv :=
  ⟨"key.pem", ["oracle-database"], [], ["running"], fun _ => true, "db.example.com", false⟩

/-- Environment where the instance runs and ssh comes up. -/
def envC5ok : LaunchEnv :=
  ⟨"key.pem", ["oracle-database"], [], ["running"], fun _ => true, "db.example.com", true⟩

/-- Environment with three `pending` polls and a tagging call that fails on
every attempt. -/
def envC6 : LaunchEnv :=
  ⟨"key.pem", ["oracle-database"], [], ["pending", "pending", "pending", "running"],
   fun _ => false, "db.example.com", true⟩

/-- Environment with two `pending` polls and a tagging call that succeeds on
its first attempt. -/
def envC6s : LaunchEnv :=
  ⟨"key.pem", ["oracle-database"], [], ["pending", "pending", "running"],
   fun _ => true, "db.example.com", true⟩

/-- Environment where the security group is absent at the launch check but
present when `create_security_group` re-lists groups (the race the
check-then-create pattern leaves open). -/
def envC8 : LaunchEnv :=
  ⟨"key.pem", [], ["oracle-database"], ["running"], fun _ => true, "db.example.com", true⟩

/-! ### Helper lemmas -/

theorem install_db_tail_stops (marker : Nat → Bool) :
    ∀ (n fuel i : Nat), marker (i + n) = true → (∀ m, m < n → marker (i + m) = false) →
      n < fuel → install_db_tail marker fuel i = (tailTraceFrom i n, true) := by
  intro n
  induction n with
  | zero =>
    intro fuel i hm _ hfuel
    obtain ⟨f, rfl⟩ := Nat.exists_eq_succ_of_ne_zero (Nat.pos_iff_ne_zero.mp hfuel)
    simp only [install_db_tail, tailTraceFrom]
    rw [show i + 0 = i from rfl] at hm
    simp [hm]
  | succ n ih =>
    intro fuel i hm hlt hfuel
    obtain ⟨f, rfl⟩ := Nat.exists_eq_succ_of_ne_zero (Nat.pos_iff_ne_zero.mp (Nat.lt_of_le_of_lt (Nat.zero_le _) hfuel))
    have h0 : marker i = false := by
      have := hlt 0 (Nat.succ_pos n)
      simpa using this
    have hm' : marker (i + 1 + n) = true := by
      have : i + 1 + n = i + (n + 1) := by omega
      rw [this]; exact hm
    have hlt' : ∀ m, m < n → marker (i + 1 + m) = false := by
      intro m hmn
      have : i + 1 + m = i + (m + 1) := by omega
      rw [this]
      exact hlt (m + 1) (Nat.succ_lt_succ hmn)
    have hf' : n < f := Nat.lt_of_succ_lt_succ hfuel
    simp only [install_db_tail, h0, if_neg (by simp [h0] : ¬ marker i = true)]
    rw [ih f (i + 1) hm' hlt' hf']
    simp [tailTraceFrom]

theorem install_db_tail_no_marker (marker : Nat → Bool) (h : ∀ m, marker m = false) :
    ∀ (fuel i : Nat), (install_db_tail marker fuel i).2 = false := by
  intro fuel
  induction fuel with
  | zero => intro i; rfl
  | succ f ih =>
    intro i
    simp only [install_db_tail, h i]
    simpa using ih (i + 1)

theorem install_db_tail_marker_of_exit (marker : Nat → Bool) :
    ∀ (fuel i : Nat), (install_db_tail marker fuel i).2 = true → ∃ m, marker m = true := by
  intro fuel
  induction fuel with
  | zero => intro i h; exact absurd h (by simp [install_db_tail])
  | succ f ih =>
    intro i h
    by_cases hm : marker i = true
    · exact ⟨i, hm⟩
    · simp only [install_db_tail, if_neg hm] at h
      exact ih (i + 1) (by simpa using h)

theorem tailTraceFrom_sleep_count :
    ∀ (n i : Nat), (tailTraceFrom i n).countP (fun ev => ev == TailEv.tailSleep 10) = n := by
  intro n
  induction n with
  | zero => intro i; rfl
  | succ n ih =>
    intro i
    simp only [tailTraceFrom, List.countP_cons]
    rw [ih (i + 1)]
    simp

/-! ### Claim theorems -/

/-- Claim C2: once the installer log path is known, the tailing loop of
`install_db` polls at a fixed 10-second interval with no bound on the
number of attempts: if the marker `INFO: Unloading Setup Driver` first
appears in the copy fetched on attempt `n` (for any `n`), the loop stops
exactly there, having slept 10 seconds exactly `n` times; if no fetched
copy ever contains the marker the loop never exits (false for every fuel);
and the loop exits only when some fetched copy contains the marker. -/
theorem C2_tail_loop_terminates_iff_marker (marker : Nat → Bool) (n fuel : Nat) :
    (marker n = true → (∀ m, m < n → marker m = false) → n < fuel →
      install_db_tail marker fuel 0 = (tailTraceFrom 0 n, true) ∧
      (tailTraceFrom 0 n).countP (fun ev => ev == TailEv.tailSleep 10) = n) ∧
    ((∀ m, marker m = false) → (install_db_tail marker fuel 0).2 = false) ∧
    ((install_db_tail marker fuel 0).2 = true → ∃ m, marker m = true) := by
  refine ⟨fun hm hlt hf => ⟨?_, tailTraceFrom_sleep_count n 0⟩, fun h => install_db_tail_no_marker marker h fuel 0, fun h => install_db_tail_marker_of_exit marker fuel 0 h⟩
  have := install_db_tail_stops marker n fuel 0 (by simpa using hm) (by simpa using hlt) hf
  simpa using this

/-- Witness for C2 at concrete inputs: a marker first appearing on attempt
2 stops the loop there with two 10-second sleeps, and a marker that never
appears leaves the loop running at every fuel bound tried. -/
theorem C2_witness :
    (install_db_tail (fun i => i == 2) 5 0 = (tailTraceFrom 0 2, true) ∧
      (tailTraceFrom 0 2).countP (fun ev => ev == TailEv.tailSleep 10) = 2) ∧
    (install_db_tail (fun _ => false) 7 0).2 = false :=
  ⟨(C2_tail_loop_terminates_iff_marker (fun i => i == 2) 2 5).1 (by decide)
      (by decide) (by decide),
   (C2_tail_loop_terminates_iff_marker (fun _ => false) 2 7).2.1 (fun m => rfl)⟩

/-- Claim C1 (code evaluation at the failing input): calling `yum_install`
with the explicit override list `["sysstat"]` while the remote install
command fails makes the error branch read the unbound variable `package`,
so the call raises `NameError` instead of an error naming any package; the
install command for the override list was still issued before the failure. -/
theorem C1_code_behavior :
    (yum_install [] (some ["sysstat"]) ["oracle-rdbms-server-11gR2-preinstall", "sysstat"]
        false true false).error = some (PyError.nameError "package") ∧
    (yum_install [] (some ["sysstat"]) ["oracle-rdbms-server-11gR2-preinstall", "sysstat"]
        false true false).trace = [RCmd.sudoCmd "yum -y install sysstat"] := by
  decide

/-- Claim C9: when `yum_install` is called with a non-empty explicit
`package_list` and the remote install fails, the error branch raises
`NameError` on `package` (bound only on the config-reading path); on the
config-file path the raised error names the last package read from the
file, after issuing one install command over the whole list. -/
theorem C9_name_error (cell cfg pkgs cfg2 : List String) (p : String)
    (hp : pkgs ≠ []) (hl : cfg2.getLast? = some p) :
    (yum_install cell (some pkgs) cfg false true false).error =
      some (PyError.nameError "package") ∧
    (yum_install [] none cfg2 false true false).error =
      some (PyError.runtimeError ("Unable to install package " ++ p ++ ".")) ∧
    (yum_install [] none cfg2 false true false).trace =
      [RCmd.sudoCmd ("yum -y install " ++ String.intercalate " " cfg2)] := by
  refine ⟨?_, ?_, ?_⟩
  · cases pkgs with
    | nil => exact absurd rfl hp
    | cons a l => simp [yum_install]
  · simp [yum_install, hl]
  · simp [yum_install, hl]

/-- Witness for C9: the explicit list `["pkgA"]` yields `NameError`; the
config path over `["p1", "p2"]` names `p2`, the last package read. -/
theorem C9_witness :
    (yum_install [] (some ["pkgA"]) ["p1", "p2"] false true false).error =
      some (PyError.nameError "package") ∧
    (yum_install [] none ["p1", "p2"] false true false).error =
      some (PyError.runtimeError ("Unable to install package " ++ "p2" ++ ".")) ∧
    (yum_install [] none ["p1", "p2"] false true false).trace =
      [RCmd.sudoCmd ("yum -y install " ++ String.intercalate " " ["p1", "p2"])] :=
  C9_name_error [] ["p1", "p2"] ["pkgA"] ["p1", "p2"] "p2" (by decide) (by decide)

/-- Counterexample to claim C7: `yum_upgrade_reboot` (the `UpgradeAndReboot`
step) never refreshes the package cache, because it calls `yum_upgrade()`
with `update_cache` left at its default `False`: even with every remote
command succeeding, `yum -y makecache` is not among the commands issued. -/
theorem C7_counterexample :
    RCmd.sudoCmd "yum -y makecache" ∉ (yum_upgrade_reboot true true).1 := by
  decide

/-- Claim C7 amended: when `skip_updates` is false the workflow runs
`yum_upgrade_reboot`, which resolves pending package transactions, upgrades
all installed packages and reboots; it does not refresh the package cache
(`update_cache` defaults to `False`), so only an upgrade failure aborts the
step, with the upgrade error; the reboot happens exactly when the upgrade
succeeded. -/
theorem C7_amended_upgrade_reboot :
    ∀ mc up : Bool,
      "yum_upgrade_reboot" ∈ post_launch_steps false ∧
      RCmd.sudoCmd "yum -y makecache" ∉ (yum_upgrade_reboot mc up).1 ∧
      (yum_upgrade_reboot mc up).1.take 3 =
        [RCmd.sudoCmd "yum-complete-transaction -y",
         RCmd.sudoCmd "package-cleanup --problems",
         RCmd.sudoCmd "yum -y --skip-broken upgrade"] ∧
      ((yum_upgrade_reboot mc up).2 =
        if up then none else some "Unable to upgrade yum packages.") ∧
      (RCmd.rebootCmd REBOOT_TIME ∈ (yum_upgrade_reboot mc up).1 ↔ up = true) := by
  decide

/-- Counterexample to claim C10: after a first no-argument call with config
packages `oracle-rdbms-server-11gR2-preinstall` and `sysstat`, a second
no-argument call issues an install command with each configured package
once, not twice: the shared default list is already non-empty, so the
config is not re-read and nothing is appended again. -/
theorem C10_counterexample :
    ¬ C10Claim ["oracle-rdbms-server-11gR2-preinstall", "sysstat"] ∧
    (yum_install_twice ["oracle-rdbms-server-11gR2-preinstall", "sysstat"]).2.trace =
      [RCmd.sudoCmd "yum -y install oracle-rdbms-server-11gR2-preinstall sysstat"] := by
  refine ⟨?_, by decide⟩
  unfold C10Claim
  decide

/-- Claim C10 amended: `yum_install`'s default `package_list` is one shared
mutable list; the first no-argument call appends the configured packages to
it, so the shared cell afterwards holds exactly the configured packages; a
second no-argument call sees the non-empty shared list, skips re-reading
the config, and issues an install command containing every configured
package exactly once (identical to the first call's command), leaving the
shared cell unchanged. -/
theorem C10_amended_shared_default (cfg : List String) (hcfg : cfg ≠ []) :
    (yum_install_twice cfg).1.defaultCell = cfg ∧
    (yum_install_twice cfg).1.trace =
      [RCmd.sudoCmd ("yum -y install " ++ String.intercalate " " cfg)] ∧
    (yum_install_twice cfg).2.trace =
      [RCmd.sudoCmd ("yum -y install " ++ String.intercalate " " cfg)] ∧
    (yum_install_twice cfg).2.defaultCell = cfg := by
  cases cfg with
  | nil => exact absurd rfl hcfg
  | cons a l => refine ⟨?_, ?_, ?_, ?_⟩ <;> simp [yum_install_twice, yum_install]

/-- Witness for the amended C10 at the configured package pair. -/
theorem C10_amended_witness :
    (yum_install_twice ["oracle-rdbms-server-11gR2-preinstall", "sysstat"]).1.defaultCell =
      ["oracle-rdbms-server-11gR2-preinstall", "sysstat"] ∧
    (yum_install_twice ["oracle-rdbms-server-11gR2-preinstall", "sysstat"]).1.trace =
      [RCmd.sudoCmd ("yum -y install " ++ String.intercalate " "
        ["oracle-rdbms-server-11gR2-preinstall", "sysstat"])] ∧
    (yum_install_twice ["oracle-rdbms-server-11gR2-preinstall", "sysstat"]).2.trace =
      [RCmd.sudoCmd ("yum -y install " ++ String.intercalate " "
        ["oracle-rdbms-server-11gR2-preinstall", "sysstat"])] ∧
    (yum_install_twice ["oracle-rdbms-server-11gR2-preinstall", "sysstat"]).2.defaultCell =
      ["oracle-rdbms-server-11gR2-preinstall", "sysstat"] :=
  C10_amended_shared_default ["oracle-rdbms-server-11gR2-preinstall", "sysstat"] (by decide)

theorem pending_loop_snd (tagOk : Nat → Bool) :
    ∀ (states : List String) (k : Nat) (b : Bool),
      (pending_loop tagOk states k b).2 = terminal_of states := by
  intro states
  induction states with
  | nil => intro k b; rfl
  | cons st rest ih =>
    intro k b
    by_cases hp : (st == "pending") = true
    · cases b
      · simpa [pending_loop, hp, terminal_of, List.dropWhile_cons] using ih (k + 1) (tagOk k)
      · simpa [pending_loop, hp, terminal_of, List.dropWhile_cons] using ih k true
    · simp [pending_loop, hp, terminal_of, List.dropWhile_cons]

theorem pending_loop_mem (tagOk : Nat → Bool) :
    ∀ (states : List String) (k : Nat) (b : Bool) (ev : Ev),
      ev ∈ (pending_loop tagOk states k b).1 →
      ev = Ev.apiCreateTags instance_name ∨ ev = Ev.evSleep 10 := by
  intro states
  induction states with
  | nil => intro k b ev h; exact absurd h (by simp [pending_loop])
  | cons st rest ih =>
    intro k b ev h
    by_cases hp : (st == "pending") = true
    · cases b
      · simp [pending_loop, hp] at h
        rcases h with rfl | rfl | h
        · exact Or.inl rfl
        · exact Or.inr rfl
        · exact ih (k + 1) (tagOk k) ev h
      · simp [pending_loop, hp] at h
        rcases h with rfl | h
        · exact Or.inr rfl
        · exact ih k true ev h
    · simp [pending_loop, hp] at h

theorem grp_phase_mem (e : LaunchEnv) (ev : Ev) (h : ev ∈ (grp_phase e).1) :
    ev = Ev.apiGetGroups ∨ ev = Ev.apiCreateGroup security_group_name ∨
    ev = Ev.apiAuthorize "tcp" 22 22 "0.0.0.0/0" ∨
    ev = Ev.apiAuthorize "tcp" 1158 1158 "0.0.0.0/0" := by
  unfold grp_phase create_security_group at h
  by_cases h1 : security_group_name ∈ e.groupsAtLaunch <;>
    by_cases h2 : security_group_name ∈ e.groupsAtCreate <;>
      simp [h1, h2] at h <;> tauto

theorem launch_outcome_eq (e : LaunchEnv) (skip_updates : Bool) :
    (launch_instance e skip_updates).2 =
      match (grp_phase e).2 with
      | some msg => LaunchOutcome.raised msg
      | none =>
        match terminal_of e.states with
        | none => LaunchOutcome.outOfStates
        | some st =>
          if st == "running" then
            if e.sshOk then LaunchOutcome.ok
            else LaunchOutcome.raised
              "Unable to connect over SSH to host {} with timeout/retry_count settings."
          else LaunchOutcome.raised ("Instance state is " ++ st ++ ".") := by
  unfold launch_instance
  rw [pending_loop_snd e.tagOk e.states 0 false]
  cases (grp_phase e).2 with
  | some msg => rfl
  | none =>
    cases terminal_of e.states with
    | none => rfl
    | some st =>
      by_cases hr : (st == "running") = true
      · cases hs : e.sshOk <;> simp [hr, hs]
      · simp [hr]

theorem grp_phase_countP_zero (e : LaunchEnv) (p : Ev → Bool)
    (h1 : p Ev.apiGetGroups = false)
    (h2 : p (Ev.apiCreateGroup security_group_name) = false)
    (h3 : p (Ev.apiAuthorize "tcp" 22 22 "0.0.0.0/0") = false)
    (h4 : p (Ev.apiAuthorize "tcp" 1158 1158 "0.0.0.0/0") = false) :
    (grp_phase e).1.countP p = 0 := by
  rw [List.countP_eq_zero]
  intro ev hev
  rcases grp_phase_mem e ev hev with rfl | rfl | rfl | rfl <;> simp [h1, h2, h3, h4]

theorem pending_loop_countP_zero (e : LaunchEnv) (p : Ev → Bool)
    (h6 : p (Ev.apiCreateTags instance_name) = false)
    (h7 : p (Ev.evSleep 10) = false) :
    ((pending_loop e.tagOk e.states 0 false).1.countP p) = 0 := by
  rw [List.countP_eq_zero]
  intro ev hev
  rcases pending_loop_mem e.tagOk e.states 0 false ev hev with rfl | rfl <;> simp [h6, h7]

theorem launch_pre_trace_countP_zero (e : LaunchEnv) (p : Ev → Bool)
    (h1 : p Ev.apiGetGroups = false)
    (h2 : p (Ev.apiCreateGroup security_group_name) = false)
    (h3 : p (Ev.apiAuthorize "tcp" 22 22 "0.0.0.0/0") = false)
    (h4 : p (Ev.apiAuthorize "tcp" 1158 1158 "0.0.0.0/0") = false)
    (h5 : p (Ev.apiRunInstances ami_id instance_type security_group_name 40) = false)
    (h6 : p (Ev.apiCreateTags instance_name) = false)
    (h7 : p (Ev.evSleep 10) = false) :
    (launch_pre_trace e).countP p = 0 := by
  unfold launch_pre_trace
  rw [List.countP_append, List.countP_append]
  rw [grp_phase_countP_zero e p h1 h2 h3 h4, pending_loop_countP_zero e p h6 h7]
  simp [List.countP_cons, h5]

theorem launch_ssh_trace_countP_zero (e : LaunchEnv) (p : Ev → Bool)
    (h1 : p Ev.apiGetGroups = false)
    (h2 : p (Ev.apiCreateGroup security_group_name) = false)
    (h3 : p (Ev.apiAuthorize "tcp" 22 22 "0.0.0.0/0") = false)
    (h4 : p (Ev.apiAuthorize "tcp" 1158 1158 "0.0.0.0/0") = false)
    (h5 : p (Ev.apiRunInstances ami_id instance_type security_group_name 40) = false)
    (h6 : p (Ev.apiCreateTags instance_name) = false)
    (h7 : p (Ev.evSleep 10) = false)
    (h8 : p (Ev.evRun ("ssh-keygen -R " ++ e.dns)) = false)
    (h9 : p (Ev.evSleep LAUNCH_TIME) = false)
    (h10 : p (Ev.evProbe (test_ssh_cmd e.keyfile "root" e.dns 30 20)) = false) :
    (launch_ssh_trace e).countP p = 0 := by
  unfold launch_ssh_trace
  rw [List.countP_append]
  rw [launch_pre_trace_countP_zero e p h1 h2 h3 h4 h5 h6 h7]
  simp [List.countP_cons, h8, h9, h10]

theorem launch_countP_split (e : LaunchEnv) (skip_updates : Bool) (p : Ev → Bool)
    (hgrp : (grp_phase e).2 = none)
    (h5 : p (Ev.apiRunInstances ami_id instance_type security_group_name 40) = false)
    (h8 : p (Ev.evRun ("ssh-keygen -R " ++ e.dns)) = false)
    (h9 : p (Ev.evSleep LAUNCH_TIME) = false)
    (h10 : p (Ev.evProbe (test_ssh_cmd e.keyfile "root" e.dns 30 20)) = false)
    (h11 : p (Ev.evSetHost ("root@" ++ e.dns)) = false)
    (h12 : p (Ev.evPostLaunch ("root@" ++ e.dns) ("oracle@" ++ e.dns)
      skip_updates) = false) :
    (launch_instance e skip_updates).1.countP p =
      (grp_phase e).1.countP p + (pending_loop e.tagOk e.states 0 false).1.countP p := by
  unfold launch_instance
  rw [hgrp]
  cases hpl : (pending_loop e.tagOk e.states 0 false).2 with
  | none => simp [launch_pre_trace, List.countP_append, List.countP_cons, h5]
  | some st =>
    by_cases hr : (st == "running") = true
    · cases hs : e.sshOk
      · simp [hr, hs, launch_ssh_trace, launch_pre_trace, List.countP_append,
              List.countP_cons, h5, h8, h9, h10]
      · simp [hr, hs, launch_ssh_trace, launch_pre_trace, List.countP_append,
              List.countP_cons, h5, h8, h9, h10, h11, h12]
    · simp [hr, launch_pre_trace, List.countP_append, List.countP_cons, h5]

theorem launch_countP_tag (e : LaunchEnv) (skip_updates : Bool)
    (hgrp : (grp_phase e).2 = none) :
    (launch_instance e skip_updates).1.countP isTagEv =
      (pending_loop e.tagOk e.states 0 false).1.countP isTagEv := by
  rw [launch_countP_split e skip_updates isTagEv hgrp rfl rfl rfl rfl rfl rfl,
     grp_phase_countP_zero e isTagEv rfl rfl rfl rfl, Nat.zero_add]

theorem pending_loop_countP_tag_tagged (tagOk : Nat → Bool) :
    ∀ (states : List String) (k : Nat),
      ((pending_loop tagOk states k true).1.countP isTagEv) = 0 := by
  intro states
  induction states with
  | nil => intro k; rfl
  | cons st rest ih =>
    intro k
    by_cases hp : (st == "pending") = true
    · simp [pending_loop, hp, List.countP_cons, isTagEv, ih k]
    · simp [pending_loop, hp]

theorem pending_loop_countP_tag_all_fail (tagOk : Nat → Bool) (h : ∀ k, tagOk k = false) :
    ∀ (states : List String) (k : Nat),
      ((pending_loop tagOk states k false).1.countP isTagEv) = leadingPendingCount states := by
  intro states
  induction states with
  | nil => intro k; rfl
  | cons st rest ih =>
    intro k
    by_cases hp : (st == "pending") = true
    · simp [pending_loop, hp, h k, List.countP_cons, isTagEv, leadingPendingCount,
            List.takeWhile_cons, ih (k + 1)]
    · simp [pending_loop, hp, leadingPendingCount, List.takeWhile_cons]

theorem pending_loop_countP_tag_first_success (tagOk : Nat → Bool) (h : tagOk 0 = true)
    (states : List String) :
    ((pending_loop tagOk states 0 false).1.countP isTagEv) =
      min (leadingPendingCount states) 1 := by
  cases states with
  | nil => rfl
  | cons st rest =>
    by_cases hp : (st == "pending") = true
    · have h0 := pending_loop_countP_tag_tagged tagOk rest 1
      simp [pending_loop, hp, h, List.countP_cons, isTagEv, h0, leadingPendingCount,
            List.takeWhile_cons]
    · simp [pending_loop, hp, leadingPendingCount, List.takeWhile_cons]

theorem launch_pre_trace_filter_probe (e : LaunchEnv) :
    (launch_pre_trace e).filter isProbeEv = [] := by
  rw [List.filter_eq_nil_iff]
  intro ev hev
  unfold launch_pre_trace at hev
  simp only [List.mem_append] at hev
  rcases hev with (hev | hev) | hev
  · rcases grp_phase_mem e ev hev with rfl | rfl | rfl | rfl <;> simp [isProbeEv]
  · simp only [List.mem_singleton] at hev
    subst hev
    simp [isProbeEv]
  · rcases pending_loop_mem e.tagOk e.states 0 false ev hev with rfl | rfl <;> simp [isProbeEv]

theorem launch_filter_probe (e : LaunchEnv) (skip_updates : Bool)
    (hgrp : (grp_phase e).2 = none) (hterm : terminal_of e.states = some "running") :
    (launch_instance e skip_updates).1.filter isProbeEv =
      [Ev.evProbe (test_ssh_cmd e.keyfile "root" e.dns 30 20)] := by
  have hpl : (pending_loop e.tagOk e.states 0 false).2 = some "running" := by
    rw [pending_loop_snd]
    exact hterm
  unfold launch_instance
  rw [hgrp, hpl]
  cases hs : e.sshOk <;>
    simp [hs, launch_ssh_trace, List.filter_append, launch_pre_trace_filter_probe, isProbeEv]

/-- Claim C4: for every terminal instance state other than `running`
observed after the state leaves `pending`, `launch_instance` raises the
provisioning error naming that state, and neither the `post_launch`
hand-off nor any later step (host-record write, ssh probe) appears in the
trace. -/
theorem C4_nonrunning_raises (e : LaunchEnv) (skip_updates : Bool) (st : String)
    (hgrp : (grp_phase e).2 = none) (hterm : terminal_of e.states = some st)
    (hne : st ≠ "running") :
    (launch_instance e skip_updates).2 =
      LaunchOutcome.raised ("Instance state is " ++ st ++ ".") ∧
    (launch_instance e skip_updates).1.countP isPostLaunchEv = 0 ∧
    (launch_instance e skip_updates).1.countP isSetHostEv = 0 ∧
    (launch_instance e skip_updates).1.countP isProbeEv = 0 := by
  have hpl : (pending_loop e.tagOk e.states 0 false).2 = some st := by
    rw [pending_loop_snd]
    exact hterm
  have hbeq : (st == "running") = false := by
    simp [hne]
  have htr : launch_instance e skip_updates =
      (launch_pre_trace e, LaunchOutcome.raised ("Instance state is " ++ st ++ ".")) := by
    unfold launch_instance
    rw [hgrp, hpl]
    simp [hbeq]
  rw [htr]
  exact ⟨rfl,
    launch_pre_trace_countP_zero e isPostLaunchEv rfl rfl rfl rfl rfl rfl rfl,
    launch_pre_trace_countP_zero e isSetHostEv rfl rfl rfl rfl rfl rfl rfl,
    launch_pre_trace_countP_zero e isProbeEv rfl rfl rfl rfl rfl rfl rfl⟩

/-- Witness for C4: the state sequence `pending, terminated` raises the
provisioning error, and no post-launch, host-record or probe event occurs. -/
theorem C4_witness :
    (launch_instance envC4 false).2 =
      LaunchOutcome.raised ("Instance state is " ++ "terminated" ++ ".") ∧
    (launch_instance envC4 false).1.countP isPostLaunchEv = 0 ∧
    (launch_instance envC4 false).1.countP isSetHostEv = 0 ∧
    (launch_instance envC4 false).1.countP isProbeEv = 0 :=
  C4_nonrunning_raises envC4 false "terminated" (by decide) (by decide) (by decide)

/-- Claim C5: when the ssh connectivity check fails (the probe command's
attempt budget exhausts with no success), `launch_instance` raises the
unreachable-host error and neither the host record write nor the
`post_launch` hand-off occurs; when the probe succeeds, the launch
completes, writing the host record and running `post_launch`. -/
theorem C5_ssh_gate (e : LaunchEnv) (skip_updates : Bool)
    (hgrp : (grp_phase e).2 = none) (hterm : terminal_of e.states = some "running") :
    (e.sshOk = false →
      (launch_instance e skip_updates).2 =
        LaunchOutcome.raised
          "Unable to connect over SSH to host {} with timeout/retry_count settings." ∧
      (launch_instance e skip_updates).1.countP isSetHostEv = 0 ∧
      (launch_instance e skip_updates).1.countP isPostLaunchEv = 0) ∧
    (e.sshOk = true →
      (launch_instance e skip_updates).2 = LaunchOutcome.ok ∧
      Ev.evSetHost ("root@" ++ e.dns) ∈ (launch_instance e skip_updates).1 ∧
      Ev.evPostLaunch ("root@" ++ e.dns) ("oracle@" ++ e.dns) skip_updates ∈
        (launch_instance e skip_updates).1) := by
  have hpl : (pending_loop e.tagOk e.states 0 false).2 = some "running" := by
    rw [pending_loop_snd]
    exact hterm
  constructor
  · intro hs
    have htr : launch_instance e skip_updates =
        (launch_ssh_trace e,
         LaunchOutcome.raised
           "Unable to connect over SSH to host {} with timeout/retry_count settings.") := by
      unfold launch_instance
      rw [hgrp, hpl]
      simp [hs]
    rw [htr]
    exact ⟨rfl,
      launch_ssh_trace_countP_zero e isSetHostEv rfl rfl rfl rfl rfl rfl rfl rfl rfl rfl,
      launch_ssh_trace_countP_zero e isPostLaunchEv rfl rfl rfl rfl rfl rfl rfl rfl rfl rfl⟩
  · intro hs
    have htr : launch_instance e skip_updates =
        (launch_ssh_trace e ++
          [Ev.evSetHost ("root@" ++ e.dns),
           Ev.evPostLaunch ("root@" ++ e.dns) ("oracle@" ++ e.dns) skip_updates],
         LaunchOutcome.ok) := by
      unfold launch_instance
      rw [hgrp, hpl]
      simp [hs]
    rw [htr]
    refine ⟨rfl, ?_, ?_⟩ <;> simp

/-- Witness for C5: with ssh never reachable the unreachable error is
raised and nothing further runs; with ssh reachable the host record is
written and `post_launch` runs. -/
theorem C5_witness :
    ((launch_instance envC5 false).2 =
       LaunchOutcome.raised
         "Unable to connect over SSH to host {} with timeout/retry_count settings." ∧
     (launch_instance envC5 false).1.countP isSetHostEv = 0 ∧
     (launch_instance envC5 false).1.countP isPostLaunchEv = 0) ∧
    ((launch_instance envC5ok false).2 = LaunchOutcome.ok ∧
     Ev.evSetHost ("root@" ++ envC5ok.dns) ∈ (launch_instance envC5ok false).1 ∧
     Ev.evPostLaunch ("root@" ++ envC5ok.dns) ("oracle@" ++ envC5ok.dns) false ∈
       (launch_instance envC5ok false).1) :=
  ⟨(C5_ssh_gate envC5 false (by decide) (by decide)).1 rfl,
   (C5_ssh_gate envC5ok false (by decide) (by decide)).2 rfl⟩

/-- Counterexample to claim C3: in a run whose probe budget exhausts with
no success, the readiness check does not issue 20 probe commands each
requesting a single connection attempt; it issues exactly one probe
command, and that command requests `ConnectionAttempts=20` with
`ConnectTimeout=30` inside the single invocation. -/
theorem C3_counterexample :
    ¬ C3Claim envC3 false ∧
    (launch_instance envC3 false).1.filter isProbeEv =
      [Ev.evProbe (test_ssh_cmd "key.pem" "root" "db.example.com" 30 20)] := by
  refine ⟨?_, by decide⟩
  unfold C3Claim
  decide

/-- Claim C3 amended: after the fixed `LAUNCH_TIME` (300s) warm-up sleep
the readiness check issues exactly one probe command — the `test_ssh`
invocation with `ConnectTimeout=30` and `ConnectionAttempts=20`, so the
per-attempt retry budget lives inside that single ssh command — and the
launch completes exactly when that one command succeeds. -/
theorem C3_amended_single_probe (e : LaunchEnv) (skip_updates : Bool)
    (hgrp : (grp_phase e).2 = none) (hterm : terminal_of e.states = some "running") :
    (launch_instance e skip_updates).1.filter isProbeEv =
      [Ev.evProbe (test_ssh_cmd e.keyfile "root" e.dns 30 20)] ∧
    Ev.evSleep LAUNCH_TIME ∈ (launch_instance e skip_updates).1 ∧
    ((launch_instance e skip_updates).2 = LaunchOutcome.ok ↔ e.sshOk = true) := by
  have hpl : (pending_loop e.tagOk e.states 0 false).2 = some "running" := by
    rw [pending_loop_snd]
    exact hterm
  refine ⟨launch_filter_probe e skip_updates hgrp hterm, ?_, ?_⟩
  · unfold launch_instance
    rw [hgrp, hpl]
    cases hs : e.sshOk <;> simp [hs, launch_ssh_trace]
  · rw [launch_outcome_eq]
    rw [hgrp, hterm]
    cases hs : e.sshOk <;> simp [hs]

/-- Witness for the amended C3 at a concrete environment. -/
theorem C3_amended_witness :
    (launch_instance envC3 false).1.filter isProbeEv =
      [Ev.evProbe (test_ssh_cmd envC3.keyfile "root" envC3.dns 30 20)] ∧
    Ev.evSleep LAUNCH_TIME ∈ (launch_instance envC3 false).1 ∧
    ((launch_instance envC3 false).2 = LaunchOutcome.ok ↔ envC3.sshOk = true) :=
  C3_amended_single_probe envC3 false (by decide) (by decide)

/-- Counterexample to claim C6: with three `pending` polls and a tagging
call that fails every time, `launch_instance` issues three `create_tags`
attempts — not "exactly once with at most one retry" — and still completes
normally. -/
theorem C6_counterexample :
    ¬ C6Claim envC6 false ∧
    (launch_instance envC6 false).1.countP isTagEv = 3 ∧
    (launch_instance envC6 false).2 = LaunchOutcome.ok := by
  refine ⟨?_, by decide, by decide⟩
  unfold C6Claim
  decide

/-- Claim C6 amended: during the pending-state polling loop,
`launch_instance` attempts the name tag once per poll iteration until an
attempt succeeds — unboundedly many retries while the instance stays
`pending`, and zero attempts if the state is never observed `pending` — and
tagging outcomes never affect the launch outcome (a tagging failure never
aborts provisioning): the outcome is identical under any tagging-result
sequence; when every attempt fails the number of `create_tags` calls equals
the number of `pending` polls; when the first attempt succeeds there is at
most one call. -/
theorem C6_amended_tagging (e : LaunchEnv) (g : Nat → Bool) (skip_updates : Bool)
    (hgrp : (grp_phase e).2 = none) :
    (launch_instance
        ⟨e.keyfile, e.groupsAtLaunch, e.groupsAtCreate, e.states, g, e.dns, e.sshOk⟩
        skip_updates).2 = (launch_instance e skip_updates).2 ∧
    ((∀ k, e.tagOk k = false) →
      (launch_instance e skip_updates).1.countP isTagEv = leadingPendingCount e.states) ∧
    (e.tagOk 0 = true →
      (launch_instance e skip_updates).1.countP isTagEv =
        min (leadingPendingCount e.states) 1) := by
  refine ⟨?_, ?_, ?_⟩
  · rw [launch_outcome_eq, launch_outcome_eq]
    rfl
  · intro hf
    rw [launch_countP_tag e skip_updates hgrp]
    exact pending_loop_countP_tag_all_fail e.tagOk hf e.states 0
  · intro h0
    rw [launch_countP_tag e skip_updates hgrp]
    exact pending_loop_countP_tag_first_success e.tagOk h0 e.states

/-- Witness for the amended C6: tagging outcomes do not change the launch
outcome; all-failing tagging yields one attempt per `pending` poll (three
here); a first-attempt success yields a single attempt. -/
theorem C6_amended_witness :
    (launch_instance
        ⟨envC6.keyfile, envC6.groupsAtLaunch, envC6.groupsAtCreate, envC6.states,
         (fun _ => true), envC6.dns, envC6.sshOk⟩ false).2 =
      (launch_instance envC6 false).2 ∧
    (launch_instance envC6 false).1.countP isTagEv = leadingPendingCount envC6.states ∧
    (launch_instance envC6s false).1.countP isTagEv = min (leadingPendingCount envC6s.states) 1 :=
  ⟨(C6_amended_tagging envC6 (fun _ => true) false (by decide)).1,
   (C6_amended_tagging envC6 (fun _ => true) false (by decide)).2.1 (fun k => rfl),
   (C6_amended_tagging envC6s (fun _ => false) false (by decide)).2.2 rfl⟩

/-- Claim C8: security-group handling is check-then-create.
`create_security_group` invoked while a group of the configured name
already exists raises the already-exists error after only the listing call,
creating no group and authorizing no ingress rule; `launch_instance`
attempts no group creation when the launch-time check finds the name; and
if creation is reached while the name exists (the group appeared between
the two listing calls), the launch raises the already-exists error and the
instance-launch API call never happens. -/
theorem C8_check_then_create :
    (∀ groups : List String, security_group_name ∈ groups →
      create_security_group groups =
        ([Ev.apiGetGroups], some "Security group already exists.")) ∧
    (∀ (e : LaunchEnv) (skip_updates : Bool), security_group_name ∈ e.groupsAtLaunch →
      (launch_instance e skip_updates).1.countP isCreateGroupEv = 0 ∧
      (launch_instance e skip_updates).1.countP isAuthorizeEv = 0) ∧
    (∀ (e : LaunchEnv) (skip_updates : Bool),
      security_group_name ∉ e.groupsAtLaunch → security_group_name ∈ e.groupsAtCreate →
      (launch_instance e skip_updates).2 =
        LaunchOutcome.raised "Security group already exists." ∧
      (launch_instance e skip_updates).1.countP isRunInstancesEv = 0 ∧
      (launch_instance e skip_updates).1.countP isCreateGroupEv = 0 ∧
      (launch_instance e skip_updates).1.countP isAuthorizeEv = 0) := by
  refine ⟨?_, ?_, ?_⟩
  · intro groups h
    simp [create_security_group, h]
  · intro e skip_updates h
    have hgrp : (grp_phase e).2 = none := by simp [grp_phase, h]
    have hgrp1 : (grp_phase e).1 = [Ev.apiGetGroups] := by simp [grp_phase, h]
    constructor
    · rw [launch_countP_split e skip_updates isCreateGroupEv hgrp rfl rfl rfl rfl rfl rfl,
         pending_loop_countP_zero e isCreateGroupEv rfl rfl, hgrp1]
      rfl
    · rw [launch_countP_split e skip_updates isAuthorizeEv hgrp rfl rfl rfl rfl rfl rfl,
         pending_loop_countP_zero e isAuthorizeEv rfl rfl, hgrp1]
      rfl
  · intro e skip_updates h1 h2
    have hg : grp_phase e =
        ([Ev.apiGetGroups, Ev.apiGetGroups], some "Security group already exists.") := by
      simp [grp_phase, create_security_group, h1, h2]
    have htr : launch_instance e skip_updates =
        ([Ev.apiGetGroups, Ev.apiGetGroups],
         LaunchOutcome.raised "Security group already exists.") := by
      unfold launch_instance
      rw [hg]
    rw [htr]
    exact ⟨rfl, by decide, by decide, by decide⟩

/-- Witness for C8: the three parts at concrete inputs — a group list
already containing the configured name, a launch that finds the group, and
a launch whose create step races with an existing name. -/
theorem C8_witness :
    create_security_group ["oracle-database"] =
      ([Ev.apiGetGroups], some "Security group already exists.") ∧
    ((launch_instance envC5ok false).1.countP isCreateGroupEv = 0 ∧
     (launch_instance envC5ok false).1.countP isAuthorizeEv = 0) ∧
    ((launch_instance envC8 false).2 =
       LaunchOutcome.raised "Security group already exists." ∧
     (launch_instance envC8 false).1.countP isRunInstancesEv = 0 ∧
     (launch_instance envC8 false).1.countP isCreateGroupEv = 0 ∧
     (launch_instance envC8 false).1.countP isAuthorizeEv = 0) :=
  ⟨C8_check_then_create.1 ["oracle-database"] (by decide),
   C8_check_then_create.2.1 envC5ok false (by decide),
   C8_check_then_create.2.2 envC8 false (by decide) (by decide)⟩
